import Mathlib

/-!
Verification of the `Platform` adapter in `crates/engine/src/platform.rs`
(pyxel_Mario). The file is a thin SDL2 adapter: a non-blocking event poll
translating SDL events into engine events, a frame blit with palette
resolution and scale/center arithmetic, window accessors and mutators, and
audio-device initialization.

The embedding is shallow: SDL's event queue is a list the poll loop consumes,
machine integers are `Nat`/`Int` with explicit `% 2^w` where a Rust cast
truncates, and each `unwrap` on a fallible library call is modelled by
`Option` where `none` stands for the process abort a panic causes.
-/

namespace Pyxel

/-! ## Engine event types (`crate::event`)

The engine-side enums are determined by how `platform.rs` constructs them:
`MouseButton`, `ControllerAxis` and `ControllerButton` with the constructors
named in the match arms, and `Event` with the payloads built there. -/

inductive MouseButton where
  | Left | Middle | Right | X1 | X2 | Unknown
  deriving DecidableEq, Repr

inductive ControllerAxis where
  | LeftX | LeftY | RightX | RightY | TriggerLeft | TriggerRight
  deriving DecidableEq, Repr

inductive ControllerButton where
  | A | B | X | Y | Back | Guide | Start
  | LeftStick | RightStick | LeftShoulder | RightShoulder
  | DPadUp | DPadDown | DPadLeft | DPadRight
  deriving DecidableEq, Repr

/-- The engine's normalized event enum. Scancodes are `u32` (`Nat`), window
and mouse coordinates are `i32` (`Int`), controller ids are `u32` (`Nat`)
and axis values are `i32` (`Int`). -/
inductive Event where
  | Quit
  | DropFile (filename : String)
  | WindowMoved (x y : Int)
  | WindowResized (width height : Int)
  | KeyDown (key : Nat)
  | KeyUp (key : Nat)
  | TextInput (text : String)
  | MouseMotion (x y : Int)
  | MouseButtonDown (button : MouseButton)
  | MouseButtonUp (button : MouseButton)
  | MouseWheel (x y : Int)
  | ControllerAxisMotion (which : Nat) (axis : ControllerAxis) (value : Int)
  | ControllerButtonDown (which : Nat) (button : ControllerButton)
  | ControllerButtonUp (which : Nat) (button : ControllerButton)
  deriving DecidableEq, Repr

/-! ## SDL-side event types (`sdl2` crate)

Only the payloads `poll_event` reads are modelled. The constructors
`SdlWindowEvent.OtherW` and `SdlEvent.Other` stand for the remaining
variants of the respective SDL enums, the ones the source's wildcard arms
(`_ => continue`) cover; the `Nat` tag distinguishes them. -/

inductive SdlMouseButton where
  | Left | Middle | Right | X1 | X2 | Unknown
  deriving DecidableEq, Repr

inductive SdlAxis where
  | LeftX | LeftY | RightX | RightY | TriggerLeft | TriggerRight
  deriving DecidableEq, Repr

inductive SdlButton where
  | A | B | X | Y | Back | Guide | Start
  | LeftStick | RightStick | LeftShoulder | RightShoulder
  | DPadUp | DPadDown | DPadLeft | DPadRight
  deriving DecidableEq, Repr

inductive SdlWindowEvent where
  | Moved (x y : Int)
  | Resized (width height : Int)
  | OtherW (tag : Nat)
  deriving DecidableEq, Repr

inductive SdlEvent where
  | Quit
  | DropFile (filename : String)
  | Window (winEvent : SdlWindowEvent)
  | KeyDown (scancode : Option Nat)
  | KeyUp (scancode : Option Nat)
  | TextInput (text : String)
  | MouseMotion (x y : Int)
  | MouseButtonDown (mouseBtn : SdlMouseButton)
  | MouseButtonUp (mouseBtn : SdlMouseButton)
  | MouseWheel (x y : Int)
  | ControllerAxisMotion (which : Nat) (axis : SdlAxis) (value : Int)
  | ControllerButtonDown (which : Nat) (button : SdlButton)
  | ControllerButtonUp (which : Nat) (button : SdlButton)
  | Other (tag : Nat)
  deriving DecidableEq, Repr

/-- The body of the `match` in `Platform::poll_event`: one SDL event is
either translated to `some` engine event or, for the `continue` arms
(unmapped tags, window sub-events other than moved/resized, key events
without a scancode), dropped as `none`. -/
def convertEvent : SdlEvent → Option Event
  | .Quit => some .Quit
  | .DropFile filename => some (.DropFile filename)
  | .Window winEvent =>
      match winEvent with
      | .Moved x y => some (.WindowMoved x y)
      | .Resized width height => some (.WindowResized width height)
      | .OtherW _ => none
  | .KeyDown (some scancode) => some (.KeyDown scancode)
  | .KeyUp (some scancode) => some (.KeyUp scancode)
  | .TextInput text => some (.TextInput text)
  | .MouseMotion x y => some (.MouseMotion x y)
  | .MouseButtonDown mouseBtn =>
      some (.MouseButtonDown (match mouseBtn with
        | .Left => .Left
        | .Middle => .Middle
        | .Right => .Right
        | .X1 => .X1
        | .X2 => .X2
        | .Unknown => .Unknown))
  | .MouseButtonUp mouseBtn =>
      some (.MouseButtonUp (match mouseBtn with
        | .Left => .Left
        | .Middle => .Middle
        | .Right => .Right
        | .X1 => .X1
        | .X2 => .X2
        | .Unknown => .Unknown))
  | .MouseWheel x y => some (.MouseWheel x y)
  | .ControllerAxisMotion which axis value =>
      some (.ControllerAxisMotion which
        (match axis with
          | .LeftX => .LeftX
          | .LeftY => .LeftY
          | .RightX => .RightX
          | .RightY => .RightY
          | .TriggerLeft => .TriggerLeft
          | .TriggerRight => .TriggerRight)
        value)
  | .ControllerButtonDown which button =>
      some (.ControllerButtonDown which
        (match button with
          | .A => .A
          | .B => .B
          | .X => .X
          | .Y => .Y
          | .Back => .Back
          | .Guide => .Guide
          | .Start => .Start
          | .LeftStick => .LeftStick
          | .RightStick => .RightStick
          | .LeftShoulder => .LeftShoulder
          | .RightShoulder => .RightShoulder
          | .DPadUp => .DPadUp
          | .DPadDown => .DPadDown
          | .DPadLeft => .DPadLeft
          | .DPadRight => .DPadRight))
  | .ControllerButtonUp which button =>
      some (.ControllerButtonUp which
        (match button with
          | .A => .A
          | .B => .B
          | .X => .X
          | .Y => .Y
          | .Back => .Back
          | .Guide => .Guide
          | .Start => .Start
          | .LeftStick => .LeftStick
          | .RightStick => .RightStick
          | .LeftShoulder => .LeftShoulder
          | .RightShoulder => .RightShoulder
          | .DPadUp => .DPadUp
          | .DPadDown => .DPadDown
          | .DPadLeft => .DPadLeft
          | .DPadRight => .DPadRight))
  | .KeyDown none => none
  | .KeyUp none => none
  | .Other _ => none

/-- The loop of `Platform::poll_event`: pop events off the SDL event pump
(modelled as the list of currently queued events) until one translates,
returning `None` as soon as the queue is exhausted. -/
def poll_event : List SdlEvent → Option Event
  | [] => none
  | sdlEvent :: rest =>
      match convertEvent sdlEvent with
      | some event => some event
      | none => poll_event rest

/-! ## Images and the frame blit (`Platform::render_screen`)

`crate::image::Image` exposes `width`, `height`, `data` (row-major 8-bit
palette indices, `screen_data[i][j]`) and `palette` with `display_color`
taking an index to a 24-bit `Rgb24` color. `data` and `display_color` are
modelled as functions; their values are the `u8`/`u32` contents. -/

structure Palette where
  display_color : Nat → Nat

structure Image where
  width : Nat
  height : Nat
  data : Nat → Nat → Nat
  palette : Palette

/-- Pointwise update of the texture buffer (one byte store `buffer[k] = v`). -/
def updBuf (buffer : Nat → Nat) (k v : Nat) : Nat → Nat :=
  fun n => if n = k then v else buffer n

/-- The body of the inner loop in `render_screen`'s `with_lock` closure:
for pixel `(i, j)`, resolve the palette color and store its red, green and
blue bytes at `offset`, `offset + 1`, `offset + 2`. -/
def blitPixel (screen : Image) (pitch i j : Nat) (buffer : Nat → Nat) : Nat → Nat :=
  let offset := i * pitch + j * 3
  let color := screen.palette.display_color (screen.data i j)
  updBuf (updBuf (updBuf buffer
    offset ((color >>> 16) &&& 0xff))
    (offset + 1) ((color >>> 8) &&& 0xff))
    (offset + 2) (color &&& 0xff)

/-- The inner loop `for j in 0..screen_width` of row `i`. -/
def blitRow (screen : Image) (pitch i w : Nat) (buffer : Nat → Nat) : Nat → Nat :=
  (List.range w).foldl (fun b j => blitPixel screen pitch i j b) buffer

/-- The outer loop `for i in 0..screen_height`: the whole texture write of
`render_screen`'s `with_lock` closure. -/
def blit (screen : Image) (pitch h : Nat) (buffer : Nat → Nat) : Nat → Nat :=
  (List.range h).foldl (fun b i => blitRow screen pitch i screen.width b) buffer

/-- What `render_screen` hands to the SDL canvas: the texture buffer
written under `with_lock`, the clear color from `bg_color`, and the
destination rectangle of the `copy` call (`x`, `y` as `i32`, width and
height as `u32`). -/
structure RenderResult where
  buffer : Nat → Nat
  drawColor : Nat × Nat × Nat
  destRect : Int × Int × Nat × Nat

/-- `Platform::render_screen`, as a function of the window size, the frame
image, the background color and the pitch SDL supplies to the `with_lock`
closure. Buffer writes, the draw color split of `bg_color`, and the
scale/center arithmetic for the destination rectangle are transcribed from
the source; `present` has no data content. The `u32` subtractions map to
`Nat` subtraction (see `render_screen_no_underflow`). -/
def render_screen (windowSize : Nat × Nat) (screen : Image) (bg_color : Nat)
    (pitch : Nat) (buffer : Nat → Nat) : RenderResult :=
  let screen_width := screen.width
  let screen_height := screen.height
  let buffer2 := blit screen pitch screen_height buffer
  let drawColor := ((bg_color >>> 16) &&& 0xff, (bg_color >>> 8) &&& 0xff, bg_color &&& 0xff)
  let window_width := windowSize.1
  let window_height := windowSize.2
  let screen_scale := min (window_width / screen_width) (window_height / screen_height)
  let screen_x := (window_width - screen_width * screen_scale) / 2
  let screen_y := (window_height - screen_height * screen_scale) / 2
  { buffer := buffer2
    drawColor := drawColor
    destRect := ((screen_x : Int), (screen_y : Int),
      screen_width * screen_scale, screen_height * screen_scale) }

/-! ## Platform state, window accessors and mutators

The `Platform` struct holds the canvas (owning the window), the streaming
texture, the timer, the event pump and the audio subsystem. SDL state is
modelled by the values the adapter reads and writes: the window's title,
position, size, minimum size and fullscreen state; the texture's byte
buffer; the timer's tick count; the queued events. -/

inductive SdlFullscreenType where
  | Off | True | Desktop
  deriving DecidableEq, Repr

/-- The struct `sdl2::audio::AudioSpecDesired`: `freq : Option<i32>`,
`channels : Option<u8>`, `samples : Option<u16>`. -/
structure AudioSpecDesired where
  freq : Option Int
  channels : Option Nat
  samples : Option Nat
  deriving DecidableEq, Repr

structure WindowState where
  title : String
  position : Int × Int
  size : Nat × Nat
  minimumSize : Nat × Nat
  fullscreenState : SdlFullscreenType
  deriving Repr

structure CanvasState where
  window : WindowState
  drawColor : Nat × Nat × Nat
  deriving Repr

structure PlatformState where
  sdl_canvas : CanvasState
  sdl_texture : Nat → Nat
  sdl_timer : Nat
  sdl_event_pump : List SdlEvent
  sdl_audio : List AudioSpecDesired

/-- Accessor `Platform::is_fullscreen`: compares the window state with
`FullscreenType::True`. It takes `&self`; the returned pair makes the
unchanged platform state explicit. -/
def is_fullscreen (p : PlatformState) : Bool × PlatformState :=
  (p.sdl_canvas.window.fullscreenState = SdlFullscreenType.True, p)

/-- Mutator `Platform::set_fullscreen`: sets the window fullscreen state
to `True` or `Off` through the SDL call `Window::set_fullscreen`
(modelled, per the SDL contract, as assigning the requested state). -/
def set_fullscreen (isFs : Bool) (p : PlatformState) : PlatformState :=
  if isFs then
    { p with sdl_canvas.window.fullscreenState := SdlFullscreenType.True }
  else
    { p with sdl_canvas.window.fullscreenState := SdlFullscreenType.Off }

/-- Operation `Platform::set_window_icon`: the body is empty (a lone
comment), so the platform state is returned unchanged. -/
def set_window_icon (_icon : Image) (_scale : Nat) (p : PlatformState) : PlatformState :=
  p

/-! ## Audio initialization (`Platform::init_audio`)

The `u32` arguments are cast: `sample_rate as i32` (bit reinterpretation),
`channels as u8` and `sample_count as u16` (truncation). -/

/-- Rust's `as i32` on a `u32` value: reinterpret the 32 bits. -/
def u32_as_i32 (n : Nat) : Int :=
  if n % 2 ^ 32 < 2 ^ 31 then (n % 2 ^ 32 : Nat) else (n % 2 ^ 32 : Nat) - 2 ^ 32

/-- What `open_playback` receives: the desired spec and the callback
object. Wrapped by `MySdlAudioCallback`, the callback `Arc` itself is moved
into the device unchanged. -/
structure AudioDevice (α : Type) where
  spec : AudioSpecDesired
  audio_callback : α
  resumed : Bool

/-- Operation `Platform::init_audio`: build the desired spec from the cast
arguments, open the playback device with the supplied shared callback
object, and resume it. -/
def init_audio {α : Type} (sample_rate channels sample_count : Nat)
    (audio_callback : α) : AudioDevice α :=
  let spec : AudioSpecDesired :=
    { freq := some (u32_as_i32 sample_rate)
      channels := some (channels % 2 ^ 8)
      samples := some (sample_count % 2 ^ 16) }
  { spec := spec, audio_callback := audio_callback, resumed := true }

/-! ## Abort-on-failure error model

Every fallible call into SDL is `unwrap`ped in the source. `Except` models
the library call's own result; `unwrapOrAbort` models `unwrap`: the value
on success, process abort (`none`) on failure. No public operation has an
error-carrying return type. -/

def unwrapOrAbort {α : Type} : Except String α → Option α
  | .ok a => some a
  | .error _ => none

/-- Predicate `exceptOk r`: `true` iff the library call result `r` is a
success. -/
def exceptOk {α : Type} : Except String α → Bool
  | .ok _ => true
  | .error _ => false

/-- Outcomes of the fallible library calls `Platform::new` unwraps, in
source order. -/
structure NewCalls where
  sdlInit : Except String Unit
  video : Except String Unit
  windowBuild : Except String Unit
  intoCanvas : Except String Unit
  createTextureStreaming : Except String Unit
  timer : Except String Unit
  eventPump : Except String Unit
  audio : Except String Unit
  setMinimumSize : Except String Unit

/-- Control flow of `Platform::new` over its fallible calls: each is
unwrapped in turn; `some ()` is reaching the final `Platform { .. }`
expression, `none` is the abort of the first failing `unwrap`. -/
def platform_new_outcome (c : NewCalls) : Option Unit := do
  let _ ← unwrapOrAbort c.sdlInit
  let _ ← unwrapOrAbort c.video
  let _ ← unwrapOrAbort c.windowBuild
  let _ ← unwrapOrAbort c.intoCanvas
  let _ ← unwrapOrAbort c.createTextureStreaming
  let _ ← unwrapOrAbort c.timer
  let _ ← unwrapOrAbort c.eventPump
  let _ ← unwrapOrAbort c.audio
  let _ ← unwrapOrAbort c.setMinimumSize
  pure ()

/-- Operation `Platform::set_window_title`: one `unwrap` on
`Window::set_title`. -/
def set_window_title_outcome (setTitle : Except String Unit) : Option Unit :=
  unwrapOrAbort setTitle

/-- Fallible part of `Platform::set_fullscreen`: one `unwrap` on
`Window::set_fullscreen` (whichever branch runs). -/
def set_fullscreen_outcome (setFs : Except String Unit) : Option Unit :=
  unwrapOrAbort setFs

/-- Fallible calls of `Platform::render_screen`: `Texture::with_lock` and
`Canvas::copy`, each unwrapped. -/
def render_screen_outcome (withLock copy : Except String Unit) : Option Unit := do
  let _ ← unwrapOrAbort withLock
  let _ ← unwrapOrAbort copy
  pure ()

/-- Fallible call of `Platform::init_audio`: `open_playback`, unwrapped. -/
def init_audio_outcome (openPlayback : Except String Unit) : Option Unit :=
  unwrapOrAbort openPlayback

/-! ## Characterization of the blit loop -/

lemma updBuf3_at (buffer : Nat → Nat) (o v0 v1 v2 : Nat) :
    (updBuf (updBuf (updBuf buffer o v0) (o + 1) v1) (o + 2) v2) o = v0 ∧
    (updBuf (updBuf (updBuf buffer o v0) (o + 1) v1) (o + 2) v2) (o + 1) = v1 ∧
    (updBuf (updBuf (updBuf buffer o v0) (o + 1) v1) (o + 2) v2) (o + 2) = v2 := by
  refine ⟨?_, ?_, ?_⟩ <;> simp [updBuf]

lemma updBuf3_ne (buffer : Nat → Nat) (o v0 v1 v2 off : Nat)
    (h0 : off ≠ o) (h1 : off ≠ o + 1) (h2 : off ≠ o + 2) :
    (updBuf (updBuf (updBuf buffer o v0) (o + 1) v1) (o + 2) v2) off = buffer off := by
  simp only [updBuf, if_neg h0, if_neg h1, if_neg h2]

lemma blitPixel_at (screen : Image) (pitch i j : Nat) (buffer : Nat → Nat) :
    blitPixel screen pitch i j buffer (i * pitch + j * 3)
        = (screen.palette.display_color (screen.data i j) >>> 16) &&& 0xff ∧
    blitPixel screen pitch i j buffer (i * pitch + j * 3 + 1)
        = (screen.palette.display_color (screen.data i j) >>> 8) &&& 0xff ∧
    blitPixel screen pitch i j buffer (i * pitch + j * 3 + 2)
        = screen.palette.display_color (screen.data i j) &&& 0xff := by
  simpa [blitPixel] using updBuf3_at buffer (i * pitch + j * 3) _ _ _

lemma blitPixel_ne (screen : Image) (pitch i j : Nat) (buffer : Nat → Nat) (off : Nat)
    (h : ∀ k, k < 3 → off ≠ i * pitch + j * 3 + k) :
    blitPixel screen pitch i j buffer off = buffer off := by
  have h0 := h 0 (by omega)
  have h1 := h 1 (by omega)
  have h2 := h 2 (by omega)
  simpa [blitPixel] using
    updBuf3_ne buffer (i * pitch + j * 3) _ _ _ off (by omega) h1 h2

lemma blitRow_succ (screen : Image) (pitch i w : Nat) (buffer : Nat → Nat) :
    blitRow screen pitch i (w + 1) buffer
      = blitPixel screen pitch i w (blitRow screen pitch i w buffer) := by
  simp [blitRow, List.range_succ, List.foldl_append]

lemma blitRow_ne (screen : Image) (pitch i : Nat) (off : Nat) :
    ∀ (w : Nat) (buffer : Nat → Nat),
      (∀ j, j < w → ∀ k, k < 3 → off ≠ i * pitch + j * 3 + k) →
      blitRow screen pitch i w buffer off = buffer off := by
  intro w
  induction w with
  | zero => intro buffer _; rfl
  | succ w ih =>
      intro buffer h
      rw [blitRow_succ,
        blitPixel_ne screen pitch i w _ off (fun k hk => h w (by omega) k hk)]
      exact ih buffer (fun j hj k hk => h j (by omega) k hk)

/-- The byte the blit loop stores for pixel `(i, j)` at in-pixel offset `k`:
red, green, blue components of the palette-resolved color. -/
def pixByte (screen : Image) (i j : Nat) : Nat → Nat
  | 0 => (screen.palette.display_color (screen.data i j) >>> 16) &&& 0xff
  | 1 => (screen.palette.display_color (screen.data i j) >>> 8) &&& 0xff
  | _ => screen.palette.display_color (screen.data i j) &&& 0xff

lemma blitPixel_at_k (screen : Image) (pitch i j : Nat) (buffer : Nat → Nat)
    (k : Nat) (hk : k < 3) :
    blitPixel screen pitch i j buffer (i * pitch + j * 3 + k)
      = pixByte screen i j k := by
  interval_cases k
  · simpa [pixByte] using (blitPixel_at screen pitch i j buffer).1
  · simpa [pixByte] using (blitPixel_at screen pitch i j buffer).2.1
  · simpa [pixByte] using (blitPixel_at screen pitch i j buffer).2.2

lemma blitRow_at (screen : Image) (pitch i j k : Nat) (hk : k < 3) :
    ∀ (w : Nat) (buffer : Nat → Nat), j < w →
      blitRow screen pitch i w buffer (i * pitch + j * 3 + k)
        = pixByte screen i j k := by
  intro w
  induction w with
  | zero => intro buffer hj; omega
  | succ w ih =>
      intro buffer hj
      rw [blitRow_succ]
      rcases Nat.lt_or_ge j w with hlt | hge
      · rw [blitPixel_ne screen pitch i w _ _ (fun t ht => by omega)]
        exact ih buffer hlt
      · have hjw : j = w := by omega
        subst hjw
        exact blitPixel_at_k screen pitch i j _ k hk

lemma blit_succ (screen : Image) (pitch h : Nat) (buffer : Nat → Nat) :
    blit screen pitch (h + 1) buffer
      = blitRow screen pitch h screen.width (blit screen pitch h buffer) := by
  simp [blit, List.range_succ, List.foldl_append]

/-- Pixel `(i, j)` of row `i < h` lies strictly below row `h`'s first byte
when the pitch covers a row's `3 * width` bytes. -/
lemma offset_lt_row (pitch i j k w h : Nat) (hj : j < w) (hk : k < 3)
    (hp : 3 * w ≤ pitch) (hih : i < h) :
    i * pitch + j * 3 + k < h * pitch := by
  have hm : (i + 1) * pitch ≤ h * pitch := mul_le_mul_right' (by omega) pitch
  rw [Nat.succ_mul] at hm
  omega

lemma blit_ne (screen : Image) (pitch : Nat) (off : Nat) :
    ∀ (h : Nat) (buffer : Nat → Nat),
      (∀ i, i < h → ∀ j, j < screen.width → ∀ k, k < 3 →
        off ≠ i * pitch + j * 3 + k) →
      blit screen pitch h buffer off = buffer off := by
  intro h
  induction h with
  | zero => intro buffer _; rfl
  | succ h ih =>
      intro buffer hne
      rw [blit_succ,
        blitRow_ne screen pitch h off screen.width _
          (fun j hj k hk => hne h (by omega) j hj k hk)]
      exact ih buffer (fun i hi j hj k hk => hne i (by omega) j hj k hk)

lemma blit_at (screen : Image) (pitch i j k : Nat) (hj : j < screen.width)
    (hk : k < 3) (hp : 3 * screen.width ≤ pitch) :
    ∀ (h : Nat) (buffer : Nat → Nat), i < h →
      blit screen pitch h buffer (i * pitch + j * 3 + k)
        = pixByte screen i j k := by
  intro h
  induction h with
  | zero => intro buffer hi; omega
  | succ h ih =>
      intro buffer hi
      rw [blit_succ]
      rcases Nat.lt_or_ge i h with hlt | hge
      · rw [blitRow_ne screen pitch h _ screen.width _
          (fun j' hj' t ht =>
            Nat.ne_of_lt (lt_of_lt_of_le
              (offset_lt_row pitch i j k screen.width h hj hk hp hlt)
              (by omega)))]
        exact ih _ hlt
      · have hih : i = h := by omega
        subst hih
        exact blitRow_at screen pitch i j k hk screen.width _ hj

/-! ## Claim theorems -/

/-- C1: for every SDL event whose tag is quit, drop-file, window-moved,
window-resized, key-down/up with a present scancode, text-input,
mouse-motion, mouse-button-down/up, mouse-wheel, controller-axis-motion or
controller-button-down/up, `poll_event` returns the corresponding engine
`Event` variant with the same payload, the mapping being complete over all
6 mouse buttons, all 6 controller axes and all 15 controller buttons; SDL
events with any other tag are skipped and never returned. -/
theorem poll_event_mapping_complete :
    (∀ q, poll_event (.Quit :: q) = some .Quit) ∧
    (∀ fn q, poll_event (.DropFile fn :: q) = some (.DropFile fn)) ∧
    (∀ x y q, poll_event (.Window (.Moved x y) :: q) = some (.WindowMoved x y)) ∧
    (∀ w h q, poll_event (.Window (.Resized w h) :: q) = some (.WindowResized w h)) ∧
    (∀ sc q, poll_event (.KeyDown (some sc) :: q) = some (.KeyDown sc)) ∧
    (∀ sc q, poll_event (.KeyUp (some sc) :: q) = some (.KeyUp sc)) ∧
    (∀ t q, poll_event (.TextInput t :: q) = some (.TextInput t)) ∧
    (∀ x y q, poll_event (.MouseMotion x y :: q) = some (.MouseMotion x y)) ∧
    (∀ q, poll_event (.MouseButtonDown .Left :: q) = some (.MouseButtonDown .Left)) ∧
    (∀ q, poll_event (.MouseButtonDown .Middle :: q) = some (.MouseButtonDown .Middle)) ∧
    (∀ q, poll_event (.MouseButtonDown .Right :: q) = some (.MouseButtonDown .Right)) ∧
    (∀ q, poll_event (.MouseButtonDown .X1 :: q) = some (.MouseButtonDown .X1)) ∧
    (∀ q, poll_event (.MouseButtonDown .X2 :: q) = some (.MouseButtonDown .X2)) ∧
    (∀ q, poll_event (.MouseButtonDown .Unknown :: q) = some (.MouseButtonDown .Unknown)) ∧
    (∀ q, poll_event (.MouseButtonUp .Left :: q) = some (.MouseButtonUp .Left)) ∧
    (∀ q, poll_event (.MouseButtonUp .Middle :: q) = some (.MouseButtonUp .Middle)) ∧
    (∀ q, poll_event (.MouseButtonUp .Right :: q) = some (.MouseButtonUp .Right)) ∧
    (∀ q, poll_event (.MouseButtonUp .X1 :: q) = some (.MouseButtonUp .X1)) ∧
    (∀ q, poll_event (.MouseButtonUp .X2 :: q) = some (.MouseButtonUp .X2)) ∧
    (∀ q, poll_event (.MouseButtonUp .Unknown :: q) = some (.MouseButtonUp .Unknown)) ∧
    (∀ x y q, poll_event (.MouseWheel x y :: q) = some (.MouseWheel x y)) ∧
    (∀ c v q, poll_event (.ControllerAxisMotion c .LeftX v :: q)
      = some (.ControllerAxisMotion c .LeftX v)) ∧
    (∀ c v q, poll_event (.ControllerAxisMotion c .LeftY v :: q)
      = some (.ControllerAxisMotion c .LeftY v)) ∧
    (∀ c v q, poll_event (.ControllerAxisMotion c .RightX v :: q)
      = some (.ControllerAxisMotion c .RightX v)) ∧
    (∀ c v q, poll_event (.ControllerAxisMotion c .RightY v :: q)
      = some (.ControllerAxisMotion c .RightY v)) ∧
    (∀ c v q, poll_event (.ControllerAxisMotion c .TriggerLeft v :: q)
      = some (.ControllerAxisMotion c .TriggerLeft v)) ∧
    (∀ c v q, poll_event (.ControllerAxisMotion c .TriggerRight v :: q)
      = some (.ControllerAxisMotion c .TriggerRight v)) ∧
    (∀ c q, poll_event (.ControllerButtonDown c .A :: q) = some (.ControllerButtonDown c .A)) ∧
    (∀ c q, poll_event (.ControllerButtonDown c .B :: q) = some (.ControllerButtonDown c .B)) ∧
    (∀ c q, poll_event (.ControllerButtonDown c .X :: q) = some (.ControllerButtonDown c .X)) ∧
    (∀ c q, poll_event (.ControllerButtonDown c .Y :: q) = some (.ControllerButtonDown c .Y)) ∧
    (∀ c q, poll_event (.ControllerButtonDown c .Back :: q)
      = some (.ControllerButtonDown c .Back)) ∧
    (∀ c q, poll_event (.ControllerButtonDown c .Guide :: q)
      = some (.ControllerButtonDown c .Guide)) ∧
    (∀ c q, poll_event (.ControllerButtonDown c .Start :: q)
      = some (.ControllerButtonDown c .Start)) ∧
    (∀ c q, poll_event (.ControllerButtonDown c .LeftStick :: q)
      = some (.ControllerButtonDown c .LeftStick)) ∧
    (∀ c q, poll_event (.ControllerButtonDown c .RightStick :: q)
      = some (.ControllerButtonDown c .RightStick)) ∧
    (∀ c q, poll_event (.ControllerButtonDown c .LeftShoulder :: q)
      = some (.ControllerButtonDown c .LeftShoulder)) ∧
    (∀ c q, poll_event (.ControllerButtonDown c .RightShoulder :: q)
      = some (.ControllerButtonDown c .RightShoulder)) ∧
    (∀ c q, poll_event (.ControllerButtonDown c .DPadUp :: q)
      = some (.ControllerButtonDown c .DPadUp)) ∧
    (∀ c q, poll_event (.ControllerButtonDown c .DPadDown :: q)
      = some (.ControllerButtonDown c .DPadDown)) ∧
    (∀ c q, poll_event (.ControllerButtonDown c .DPadLeft :: q)
      = some (.ControllerButtonDown c .DPadLeft)) ∧
    (∀ c q, poll_event (.ControllerButtonDown c .DPadRight :: q)
      = some (.ControllerButtonDown c .DPadRight)) ∧
    (∀ c q, poll_event (.ControllerButtonUp c .A :: q) = some (.ControllerButtonUp c .A)) ∧
    (∀ c q, poll_event (.ControllerButtonUp c .B :: q) = some (.ControllerButtonUp c .B)) ∧
    (∀ c q, poll_event (.ControllerButtonUp c .X :: q) = some (.ControllerButtonUp c .X)) ∧
    (∀ c q, poll_event (.ControllerButtonUp c .Y :: q) = some (.ControllerButtonUp c .Y)) ∧
    (∀ c q, poll_event (.ControllerButtonUp c .Back :: q)
      = some (.ControllerButtonUp c .Back)) ∧
    (∀ c q, poll_event (.ControllerButtonUp c .Guide :: q)
      = some (.ControllerButtonUp c .Guide)) ∧
    (∀ c q, poll_event (.ControllerButtonUp c .Start :: q)
      = some (.ControllerButtonUp c .Start)) ∧
    (∀ c q, poll_event (.ControllerButtonUp c .LeftStick :: q)
      = some (.ControllerButtonUp c .LeftStick)) ∧
    (∀ c q, poll_event (.ControllerButtonUp c .RightStick :: q)
      = some (.ControllerButtonUp c .RightStick)) ∧
    (∀ c q, poll_event (.ControllerButtonUp c .LeftShoulder :: q)
      = some (.ControllerButtonUp c .LeftShoulder)) ∧
    (∀ c q, poll_event (.ControllerButtonUp c .RightShoulder :: q)
      = some (.ControllerButtonUp c .RightShoulder)) ∧
    (∀ c q, poll_event (.ControllerButtonUp c .DPadUp :: q)
      = some (.ControllerButtonUp c .DPadUp)) ∧
    (∀ c q, poll_event (.ControllerButtonUp c .DPadDown :: q)
      = some (.ControllerButtonUp c .DPadDown)) ∧
    (∀ c q, poll_event (.ControllerButtonUp c .DPadLeft :: q)
      = some (.ControllerButtonUp c .DPadLeft)) ∧
    (∀ c q, poll_event (.ControllerButtonUp c .DPadRight :: q)
      = some (.ControllerButtonUp c .DPadRight)) ∧
    (∀ tag q, poll_event (.Other tag :: q) = poll_event q) ∧
    (∀ tag q, poll_event (.Window (.OtherW tag) :: q) = poll_event q) := by
  repeat' apply And.intro
  all_goals intros
  all_goals rfl

/-- C4: `poll_event` is non-blocking — with an empty queue, or a queue
holding only events the normalized mapping skips, it returns `none` rather
than waiting. -/
theorem poll_event_nonblocking :
    poll_event [] = none ∧
    ∀ q : List SdlEvent, (∀ e ∈ q, convertEvent e = none) → poll_event q = none := by
  refine ⟨rfl, fun q => ?_⟩
  induction q with
  | nil => intro _; rfl
  | cons e rest ih =>
      intro h
      have he : convertEvent e = none := h e (List.mem_cons_self e rest)
      simp only [poll_event, he]
      exact ih (fun e' he' => h e' (List.mem_cons_of_mem e he'))

/-- Witness for C4 at a concrete queue of three unmapped events. -/
theorem poll_event_nonblocking_witness :
    poll_event [SdlEvent.Other 0, SdlEvent.Window (SdlWindowEvent.OtherW 1),
      SdlEvent.KeyDown none] = none :=
  poll_event_nonblocking.2 _ (by decide)

/-- C8: a native key-down or key-up event whose scancode is absent is
silently discarded by `poll_event`: it is never surfaced, and polling
continues with the next queued event. -/
theorem poll_event_skips_scancode_none :
    ∀ q : List SdlEvent,
      poll_event (.KeyDown none :: q) = poll_event q ∧
      poll_event (.KeyUp none :: q) = poll_event q :=
  fun _ => ⟨rfl, rfl⟩

/-- C2: the destination rectangle of `render_screen` is
`scale = min(window_w / frame_w, window_h / frame_h)` (integer division),
offsets `(window_dim - frame_dim * scale) / 2`, and dimensions
`frame_w * scale` by `frame_h * scale`. The size hypotheses keep the `Nat`
divisions on the domain where the `u32` divisions are defined. -/
theorem render_screen_dest_rect (ww wh : Nat) (screen : Image)
    (bg_color pitch : Nat) (buffer : Nat → Nat)
    (_hw : 0 < screen.width) (_hh : 0 < screen.height) :
    (render_screen (ww, wh) screen bg_color pitch buffer).destRect =
      ((((ww - screen.width * min (ww / screen.width) (wh / screen.height)) / 2 : Nat) : Int),
       (((wh - screen.height * min (ww / screen.width) (wh / screen.height)) / 2 : Nat) : Int),
       screen.width * min (ww / screen.width) (wh / screen.height),
       screen.height * min (ww / screen.width) (wh / screen.height)) := rfl

/-- Witness for C2: a 4×3 frame in a 10×9 window scales by 2 and is
centered at (1, 1) with size 8×6. -/
theorem render_screen_dest_rect_witness :
    (render_screen (10, 9) ⟨4, 3, fun _ _ => 0, ⟨fun _ => 0⟩⟩ 0 12
        (fun _ => 0)).destRect =
      ((((10 - 4 * min (10 / 4) (9 / 3)) / 2 : Nat) : Int),
       (((9 - 3 * min (10 / 4) (9 / 3)) / 2 : Nat) : Int),
       4 * min (10 / 4) (9 / 3),
       3 * min (10 / 4) (9 / 3)) :=
  render_screen_dest_rect 10 9 ⟨4, 3, fun _ _ => 0, ⟨fun _ => 0⟩⟩ 0 12
    (fun _ => 0) (by decide) (by decide)

/-- C3: for every pixel `(i, j)` of the source image, the bytes the
`with_lock` closure writes at `i * pitch + j * 3`, `+1`, `+2` are the red
(bits 16–23), green (bits 8–15) and blue (bits 0–7) components of the
palette-resolved color of `screen_data[i][j]`, and nothing outside those
three-byte pixel slots is written. -/
theorem render_screen_pixel_bytes (ww wh : Nat) (screen : Image)
    (bg_color pitch : Nat) (buffer : Nat → Nat) (i j : Nat)
    (hi : i < screen.height) (hj : j < screen.width)
    (hp : 3 * screen.width ≤ pitch) :
    ((render_screen (ww, wh) screen bg_color pitch buffer).buffer
        (i * pitch + j * 3)
      = (screen.palette.display_color (screen.data i j) >>> 16) &&& 0xff) ∧
    ((render_screen (ww, wh) screen bg_color pitch buffer).buffer
        (i * pitch + j * 3 + 1)
      = (screen.palette.display_color (screen.data i j) >>> 8) &&& 0xff) ∧
    ((render_screen (ww, wh) screen bg_color pitch buffer).buffer
        (i * pitch + j * 3 + 2)
      = screen.palette.display_color (screen.data i j) &&& 0xff) ∧
    (∀ off, (∀ i', i' < screen.height → ∀ j', j' < screen.width →
        ∀ k, k < 3 → off ≠ i' * pitch + j' * 3 + k) →
      (render_screen (ww, wh) screen bg_color pitch buffer).buffer off
        = buffer off) := by
  have hbuf : (render_screen (ww, wh) screen bg_color pitch buffer).buffer
      = blit screen pitch screen.height buffer := rfl
  refine ⟨?_, ?_, ?_, ?_⟩
  · have h0 := blit_at screen pitch i j 0 hj (by omega) hp screen.height buffer hi
    rw [hbuf]
    simpa [pixByte] using h0
  · have h1 := blit_at screen pitch i j 1 hj (by omega) hp screen.height buffer hi
    rw [hbuf]
    simpa [pixByte] using h1
  · have h2 := blit_at screen pitch i j 2 hj (by omega) hp screen.height buffer hi
    rw [hbuf]
    simpa [pixByte] using h2
  · intro off hoff
    rw [hbuf]
    exact blit_ne screen pitch off screen.height buffer hoff

/-- Witness for C3 on a 1×1 image with palette index 7 and palette
`n ↦ 66051 * n`, so the resolved color is `462357 = 0x070E15`. -/
theorem render_screen_pixel_bytes_witness :
    ((render_screen (8, 8) ⟨1, 1, fun _ _ => 7, ⟨fun n => 66051 * n⟩⟩ 0 3
        (fun _ => 0)).buffer (0 * 3 + 0 * 3)
      = ((66051 * 7) >>> 16) &&& 0xff) ∧
    ((render_screen (8, 8) ⟨1, 1, fun _ _ => 7, ⟨fun n => 66051 * n⟩⟩ 0 3
        (fun _ => 0)).buffer (0 * 3 + 0 * 3 + 1)
      = ((66051 * 7) >>> 8) &&& 0xff) ∧
    ((render_screen (8, 8) ⟨1, 1, fun _ _ => 7, ⟨fun n => 66051 * n⟩⟩ 0 3
        (fun _ => 0)).buffer (0 * 3 + 0 * 3 + 2)
      = 66051 * 7 &&& 0xff) ∧
    (∀ off, (∀ i', i' < 1 → ∀ j', j' < 1 → ∀ k, k < 3 →
        off ≠ i' * 3 + j' * 3 + k) →
      (render_screen (8, 8) ⟨1, 1, fun _ _ => 7, ⟨fun n => 66051 * n⟩⟩ 0 3
        (fun _ => 0)).buffer off = 0) :=
  render_screen_pixel_bytes 8 8 ⟨1, 1, fun _ _ => 7, ⟨fun n => 66051 * n⟩⟩ 0 3
    (fun _ => 0) 0 0 (by decide) (by decide) (by decide)

/-- C10: with the window at least as large as the frame in both dimensions
(the minimum size `Platform::new` installs), the centering arithmetic is
safe: the scale is at least 1, `frame_dim * scale` never exceeds
`window_dim` (so the `u32` subtractions cannot underflow), and the
destination rectangle's dimensions are nonzero. -/
theorem render_screen_centering_safe (ww wh : Nat) (screen : Image)
    (bg_color pitch : Nat) (buffer : Nat → Nat)
    (hw : 0 < screen.width) (hh : 0 < screen.height)
    (hmw : screen.width ≤ ww) (hmh : screen.height ≤ wh) :
    1 ≤ min (ww / screen.width) (wh / screen.height) ∧
    screen.width * min (ww / screen.width) (wh / screen.height) ≤ ww ∧
    screen.height * min (ww / screen.width) (wh / screen.height) ≤ wh ∧
    0 < (render_screen (ww, wh) screen bg_color pitch buffer).destRect.2.2.1 ∧
    0 < (render_screen (ww, wh) screen bg_color pitch buffer).destRect.2.2.2 := by
  have hs1 : 1 ≤ min (ww / screen.width) (wh / screen.height) :=
    le_min ((Nat.one_le_div_iff hw).2 hmw) ((Nat.one_le_div_iff hh).2 hmh)
  have h2 : screen.width * min (ww / screen.width) (wh / screen.height) ≤ ww :=
    calc screen.width * min (ww / screen.width) (wh / screen.height)
        ≤ screen.width * (ww / screen.width) :=
          mul_le_mul_left' (min_le_left _ _) _
      _ ≤ ww := Nat.mul_div_le ww screen.width
  have h3 : screen.height * min (ww / screen.width) (wh / screen.height) ≤ wh :=
    calc screen.height * min (ww / screen.width) (wh / screen.height)
        ≤ screen.height * (wh / screen.height) :=
          mul_le_mul_left' (min_le_right _ _) _
      _ ≤ wh := Nat.mul_div_le wh screen.height
  refine ⟨hs1, h2, h3, ?_, ?_⟩
  · show 0 < screen.width * min (ww / screen.width) (wh / screen.height)
    exact Nat.mul_pos hw (by omega)
  · show 0 < screen.height * min (ww / screen.width) (wh / screen.height)
    exact Nat.mul_pos hh (by omega)

/-- Witness for C10 with a 4×3 frame in a 10×9 window. -/
theorem render_screen_centering_safe_witness :
    1 ≤ min (10 / 4) (9 / 3) ∧
    4 * min (10 / 4) (9 / 3) ≤ 10 ∧
    3 * min (10 / 4) (9 / 3) ≤ 9 ∧
    0 < (render_screen (10, 9) ⟨4, 3, fun _ _ => 0, ⟨fun _ => 0⟩⟩ 0 12
        (fun _ => 0)).destRect.2.2.1 ∧
    0 < (render_screen (10, 9) ⟨4, 3, fun _ _ => 0, ⟨fun _ => 0⟩⟩ 0 12
        (fun _ => 0)).destRect.2.2.2 :=
  render_screen_centering_safe 10 9 ⟨4, 3, fun _ _ => 0, ⟨fun _ => 0⟩⟩ 0 12
    (fun _ => 0) (by decide) (by decide) (by decide) (by decide)

/-- C5: no public `Platform` operation returns an error value. Each
operation either aborts the process (`none`, the `unwrap` panic on a
failed library call) or completes (`some ()`), and it completes exactly
when every fallible call into the library succeeded — no recovery, retry
or error reporting on either path. -/
theorem platform_ops_abort_on_failure :
    (∀ c : NewCalls, (platform_new_outcome c).isSome =
        (exceptOk c.sdlInit && exceptOk c.video && exceptOk c.windowBuild &&
         exceptOk c.intoCanvas && exceptOk c.createTextureStreaming &&
         exceptOk c.timer && exceptOk c.eventPump && exceptOk c.audio &&
         exceptOk c.setMinimumSize)) ∧
    (∀ r : Except String Unit,
      (set_window_title_outcome r).isSome = exceptOk r) ∧
    (∀ r : Except String Unit,
      (set_fullscreen_outcome r).isSome = exceptOk r) ∧
    (∀ r1 r2 : Except String Unit,
      (render_screen_outcome r1 r2).isSome = (exceptOk r1 && exceptOk r2)) ∧
    (∀ r : Except String Unit,
      (init_audio_outcome r).isSome = exceptOk r) ∧
    (∀ c : NewCalls,
      platform_new_outcome c = some () ∨ platform_new_outcome c = none) := by
  refine ⟨?_, ?_, ?_, ?_, ?_, ?_⟩
  · rintro ⟨a, b, c, d, e, f, g, h, i⟩
    cases a <;> cases b <;> cases c <;> cases d <;> cases e <;> cases f <;>
      cases g <;> cases h <;> cases i <;> rfl
  · intro r; cases r <;> rfl
  · intro r; cases r <;> rfl
  · intro r1 r2; cases r1 <;> cases r2 <;> rfl
  · intro r; cases r <;> rfl
  · intro c
    cases ho : platform_new_outcome c with
    | none => exact Or.inr rfl
    | some u => exact Or.inl rfl

/-- C6: the fullscreen mutator and accessor round-trip — after
`set_fullscreen b`, `is_fullscreen` returns `b`, and `is_fullscreen`
itself leaves the platform state unchanged. -/
theorem fullscreen_roundtrip (p : PlatformState) (b : Bool) :
    (is_fullscreen (set_fullscreen b p)).1 = b ∧ (is_fullscreen p).2 = p := by
  refine ⟨?_, rfl⟩
  cases b <;> simp [is_fullscreen, set_fullscreen]

/-- C9: `set_window_icon` is a no-op for every icon and scale — the whole
platform state and each of its components (canvas with its window,
texture, timer, event pump, audio subsystem) are unchanged. -/
theorem set_window_icon_noop (icon : Image) (scale : Nat) (p : PlatformState) :
    set_window_icon icon scale p = p ∧
    (set_window_icon icon scale p).sdl_canvas = p.sdl_canvas ∧
    (set_window_icon icon scale p).sdl_canvas.window = p.sdl_canvas.window ∧
    (set_window_icon icon scale p).sdl_texture = p.sdl_texture ∧
    (set_window_icon icon scale p).sdl_timer = p.sdl_timer ∧
    (set_window_icon icon scale p).sdl_event_pump = p.sdl_event_pump ∧
    (set_window_icon icon scale p).sdl_audio = p.sdl_audio :=
  ⟨rfl, rfl, rfl, rfl, rfl, rfl, rfl⟩

/-- C7 counterexample: `init_audio` does not configure the device with
"exactly" every `u32` channel count — `channels = 258` is truncated by the
`as u8` cast to 2, so the desired spec does not carry 258. -/
theorem init_audio_truncates_channels :
    (init_audio 44100 258 1024 ()).spec.channels ≠ some 258 := by decide

/-- C7 (amended): whenever the arguments fit the SDL spec field types
(`sample_rate < 2^31`, `channels < 2^8`, `sample_count < 2^16`),
`init_audio` opens the playback device with exactly that sample rate,
channel count and per-callback sample count, hands the supplied callback
object to the audio subsystem unchanged, and resumes the device. -/
theorem init_audio_spec_in_range {α : Type} (sample_rate channels sample_count : Nat)
    (cb : α) (h1 : sample_rate < 2 ^ 31) (h2 : channels < 2 ^ 8)
    (h3 : sample_count < 2 ^ 16) :
    (init_audio sample_rate channels sample_count cb).spec =
      { freq := some (sample_rate : Int), channels := some channels,
        samples := some sample_count } ∧
    (init_audio sample_rate channels sample_count cb).audio_callback = cb ∧
    (init_audio sample_rate channels sample_count cb).resumed = true := by
  have hm : sample_rate % 2 ^ 32 = sample_rate := Nat.mod_eq_of_lt (by omega)
  refine ⟨?_, rfl, rfl⟩
  simp only [init_audio, u32_as_i32, hm, if_pos h1, Nat.mod_eq_of_lt h2,
    Nat.mod_eq_of_lt h3]

/-- Witness for the amended C7 at 44100 Hz, 2 channels, 512 samples. -/
theorem init_audio_spec_in_range_witness :
    (init_audio 44100 2 512 ()).spec =
      { freq := some ((44100 : Nat) : Int), channels := some 2,
        samples := some 512 } ∧
    (init_audio 44100 2 512 ()).audio_callback = () ∧
    (init_audio 44100 2 512 ()).resumed = true :=
  init_audio_spec_in_range 44100 2 512 () (by decide) (by decide) (by decide)

end Pyxel
